import Mathlib

/-!
Verification of the testability-scorer engine: principle scoring, aggregation
to an overall score and grade, and recommendation generation, as implemented in
`comprehensive-testability-analyzer.js`, `ai-testability-scorer.js` and the
test-suite scorer in `tests/testability-principles.spec.js`.

Scores are modelled as rationals (JS numbers on these code paths are exact
small binary rationals: the only non-integer factors are 2.5 and 1.5, and the
alt-text ratio comparisons; no rounding error is reachable). JS `Math.round`
is `fun x => Int.floor (x + 1/2)` (round half toward positive infinity),
`Math.min`/`Math.max` are `min`/`max`, and `Math.floor` is `Int.floor`.
Fallible JS code is modelled with `Except`/explicit failure flags.
-/

namespace TestabilityScorer

/-- JS `Math.round`: rounds half toward positive infinity. -/
def jsRound (x : ℚ) : ℤ := ⌊x + 1 / 2⌋

theorem jsRound_eq_round (x : ℚ) : jsRound x = round x := (round_eq x).symm

/-- The ten principle scores held by `ComprehensiveTestabilityAnalyzer.principles`
(and `AITestabilityScorer.principleScores`), in constructor declaration order. -/
structure PrincipleScores where
  observability : ℚ
  controllability : ℚ
  algorithmicSimplicity : ℚ
  algorithmicTransparency : ℚ
  algorithmicStability : ℚ
  explainability : ℚ
  unbugginess : ℚ
  smallness : ℚ
  decomposability : ℚ
  similarity : ℚ

/-- `Object.values(this.principles)`: field values in declaration order. -/
def PrincipleScores.values (p : PrincipleScores) : List ℚ :=
  [p.observability, p.controllability, p.algorithmicSimplicity,
   p.algorithmicTransparency, p.algorithmicStability, p.explainability,
   p.unbugginess, p.smallness, p.decomposability, p.similarity]

/-- The fixed principle names, in declaration order (`Object.keys` order). -/
def principleNames : List String :=
  ["observability", "controllability", "algorithmicSimplicity",
   "algorithmicTransparency", "algorithmicStability", "explainability",
   "unbugginess", "smallness", "decomposability", "similarity"]

/-- `Object.entries(this.principles)`: (name, score) pairs in declaration order. -/
def PrincipleScores.entries (p : PrincipleScores) : List (String × ℚ) :=
  [("observability", p.observability), ("controllability", p.controllability),
   ("algorithmicSimplicity", p.algorithmicSimplicity),
   ("algorithmicTransparency", p.algorithmicTransparency),
   ("algorithmicStability", p.algorithmicStability),
   ("explainability", p.explainability), ("unbugginess", p.unbugginess),
   ("smallness", p.smallness), ("decomposability", p.decomposability),
   ("similarity", p.similarity)]

/-- `runCompleteAnalysis` overall-score step (comprehensive analyzer, lines
710-712): `Math.round(Object.values(this.principles).reduce((s, x) => s + x, 0) / 10)`. -/
def overallScore (p : PrincipleScores) : ℤ :=
  jsRound (p.values.sum / 10)

/-- `calculateOverallScore` (tests/testability-principles.spec.js, lines 713-715):
`Math.round(scores.reduce((s, x) => s + x, 0) / scores.length)`. -/
def calculateOverallScore (p : PrincipleScores) : ℤ :=
  jsRound (p.values.sum / (p.values.length : ℚ))

/-- `getGrade` (comprehensive analyzer, lines 753-759; identical thresholds in
the quick scorer). -/
def getGrade (score : ℤ) : String :=
  if score ≥ 90 then "A (Excellent)"
  else if score ≥ 80 then "B (Good)"
  else if score ≥ 70 then "C (Average)"
  else if score ≥ 60 then "D (Below Average)"
  else "F (Poor)"

/-- `getAIGrade` (ai-testability-scorer.js, lines 1012-1019): note the extra
tier at 95. -/
def getAIGrade (score : ℤ) : String :=
  if score ≥ 95 then "A+ (AI-Optimized)"
  else if score ≥ 90 then "A (Excellent for AI)"
  else if score ≥ 80 then "B (Good for AI)"
  else if score ≥ 70 then "C (Average for AI)"
  else if score ≥ 60 then "D (Below AI Standards)"
  else "F (Not AI-Ready)"

theorem values_length (p : PrincipleScores) : p.values.length = 10 := rfl

/-- C1: for every complete map of principle scores, the overall score produced
by the aggregation step equals the unweighted arithmetic mean of all ten
principle scores rounded to the nearest integer with standard (half-up)
rounding, and agrees with the test-suite formula `round(sum / count)`. -/
theorem overallScore_is_rounded_mean (p : PrincipleScores) :
    overallScore p = round (p.values.sum / (p.values.length : ℚ)) ∧
    overallScore p = calculateOverallScore p := by
  constructor
  · rw [overallScore, jsRound_eq_round, values_length]
    norm_num
  · rw [overallScore, calculateOverallScore, values_length]
    norm_num

/-- C2 counterexample: the claim says every overall score of at least 90 yields
grade A, but the AI scorer assigns a distinct grade ("A+ (AI-Optimized)") at 95,
different from the grade at 90. -/
theorem getAIGrade_not_constant_above_90 :
    getAIGrade 95 ≠ getAIGrade 90 ∧ getAIGrade 95 ≠ "A (Excellent for AI)" := by
  constructor <;> decide

/-- C2 (amended): `getGrade` is the exact step function with boundaries
90/80/70/60 (90 yields A, 89 yields B); `getAIGrade` uses the same boundaries
except that it splits the A band, mapping scores of at least 95 to "A+". -/
theorem grade_step_function (s : ℤ) :
    (90 ≤ s → getGrade s = "A (Excellent)") ∧
    (80 ≤ s → s < 90 → getGrade s = "B (Good)") ∧
    (70 ≤ s → s < 80 → getGrade s = "C (Average)") ∧
    (60 ≤ s → s < 70 → getGrade s = "D (Below Average)") ∧
    (s < 60 → getGrade s = "F (Poor)") ∧
    (95 ≤ s → getAIGrade s = "A+ (AI-Optimized)") ∧
    (90 ≤ s → s < 95 → getAIGrade s = "A (Excellent for AI)") ∧
    (80 ≤ s → s < 90 → getAIGrade s = "B (Good for AI)") ∧
    (70 ≤ s → s < 80 → getAIGrade s = "C (Average for AI)") ∧
    (60 ≤ s → s < 70 → getAIGrade s = "D (Below AI Standards)") ∧
    (s < 60 → getAIGrade s = "F (Not AI-Ready)") := by
  unfold getGrade getAIGrade
  refine ⟨?_, ?_, ?_, ?_, ?_, ?_, ?_, ?_, ?_, ?_, ?_⟩ <;>
    · intros
      split_ifs <;> first | rfl | omega

/-- C2 witness: the boundary facts at 90 and 89 follow from the step-function
theorem at concrete scores. -/
theorem grade_step_function_witness :
    getGrade 90 = "A (Excellent)" ∧ getGrade 89 = "B (Good)" ∧
    getAIGrade 90 = "A (Excellent for AI)" ∧ getAIGrade 89 = "B (Good for AI)" :=
  ⟨(grade_step_function 90).1 (by norm_num),
   (grade_step_function 89).2.1 (by norm_num) (by norm_num),
   (grade_step_function 90).2.2.2.2.2.2.1 (by norm_num) (by norm_num),
   (grade_step_function 89).2.2.2.2.2.2.2.1 (by norm_num) (by norm_num)⟩

/-- Character-list version of JS `String.prototype.startsWith` on the pattern. -/
def charsStart : List Char → List Char → Bool
  | [], _ => true
  | _ :: _, [] => false
  | p :: ps, c :: cs => p == c && charsStart ps cs

/-- Character-list version of JS `String.prototype.includes`. -/
def charsContain (pat : List Char) : List Char → Bool
  | [] => pat.isEmpty
  | c :: cs => charsStart pat (c :: cs) || charsContain pat cs

/-- JS `s.includes(pat)`. -/
def strIncludes (s pat : String) : Bool := charsContain pat.toList s.toList

/-- The keyword table of `classifyElementCategory` (ai-testability-scorer.js),
iterated in insertion order. -/
def categoryKeywords : List (String × List String) :=
  [("navigation", ["menu", "nav", "link", "burger"]),
   ("form", ["username", "password", "email", "input", "submit", "login"]),
   ("action", ["button", "add", "remove", "click", "submit"]),
   ("display", ["container", "list", "item", "text", "image"]),
   ("feedback", ["error", "success", "warning", "message"]),
   ("control", ["toggle", "switch", "select", "option"])]

/-- Tag-based fallback classification in `classifyElementCategory`. -/
def tagCategory (tagName : String) : String :=
  if tagName == "button" then "action"
  else if tagName == "input" then "form"
  else if tagName == "select" then "form"
  else if tagName == "a" then "navigation"
  else if tagName == "img" then "display"
  else if tagName == "div" then "display"
  else "unknown"

/-- JS `toLowerCase` restricted to the ASCII identifiers appearing in
data-test ids (character-by-character lowering). -/
def strToLower (s : String) : String := ⟨s.data.map Char.toLower⟩

/-- `classifyElementCategory(testId, tagName, role)`: first keyword category
whose keyword occurs in the lower-cased test id, else the tag fallback. The
`role` argument is unused in the source body as well. -/
def classifyElementCategory (testId tagName _role : String) : String :=
  match categoryKeywords.find?
      (fun ck => ck.2.any (fun kw => strIncludes (strToLower testId) kw)) with
  | some ck => ck.1
  | none => tagCategory tagName

/-- One entry of `smartElements.dataTest` in `discoverSmartElements`. -/
structure DataTestElement where
  testId : String
  tagName : String
  role : String

/-- The `category` field computed for each data-test element. -/
def DataTestElement.category (e : DataTestElement) : String :=
  classifyElementCategory e.testId e.tagName e.role

/-- `analyzeDataTestAttributes` (ai-testability-scorer.js): 5 points when no
data-test elements exist, otherwise quantity + category-diversity +
naming-consistency points clamped to 30. -/
def analyzeDataTestAttributes (elems : List DataTestElement) : ℚ :=
  if elems.length = 0 then 5
  else ((min 30 (min 15 (elems.length / 2)
    + min 10 (((elems.map DataTestElement.category).dedup).length * 2)
    + if elems.all (fun e => strIncludes e.testId "-" || strIncludes e.testId "_")
      then 5 else 0) : ℕ) : ℚ)

/-- Observation bag consumed by `scoreAIObservability` and its sub-analyses;
the `...Throws` flags record which fallible page interactions raise (each is
caught by the corresponding sub-analysis, returning its fallback). -/
structure AIObservabilityObs where
  dataTest : List DataTestElement
  totalElements : ℤ
  testableElements : ℤ
  observableElements : ℤ
  localStorageNonempty : Bool
  sessionStorageNonempty : Bool
  hasHistory : Bool
  readyComplete : Bool
  hasCustomState : Bool
  stateCaptureThrows : Bool
  visibleErrorCount : ℤ
  consoleErrorCount : ℤ
  errorVisibilityThrows : Bool
  visualThrows : Bool
  imageCount : ℤ
  imagesWithAlt : ℤ
  networkActive : Bool
  networkThrows : Bool
  analysisThrows : Bool

/-- `analyzeStateCapture`: storage, history, ready-state and custom-state
points clamped to 25; fallback 10 on exception. -/
def analyzeStateCapture (o : AIObservabilityObs) : ℚ :=
  if o.stateCaptureThrows then 10
  else min 25 ((if o.localStorageNonempty || o.sessionStorageNonempty then 10 else 0)
    + (if o.hasHistory then 5 else 0) + (if o.readyComplete then 5 else 0)
    + (if o.hasCustomState then 5 else 0))

/-- `analyzeErrorVisibility`: feedback-classified or error-named data-test
elements, visible error elements, and console-error absence, clamped to 20;
fallback 8 on exception. -/
def analyzeErrorVisibility (o : AIObservabilityObs) : ℚ :=
  if o.errorVisibilityThrows then 8
  else min 20
    ((if 0 < (o.dataTest.filter
        (fun e => e.category == "feedback" || strIncludes e.testId "error")).length then 10 else 0)
    + (if 0 < o.visibleErrorCount then 5 else 0)
    + (if o.consoleErrorCount = 0 then 5 else 0))

/-- `analyzeVisualCapabilities`: screenshot capability, image presence and
alt-text coverage ratio, clamped to 15; fallback 5 on exception. Division by a
zero image count cannot make the ratio branch fire because the source guards
it with `images > 0` (and rational division by zero is zero here). -/
def analyzeVisualCapabilities (o : AIObservabilityObs) : ℚ :=
  if o.visualThrows then 5
  else min 15 (8 + (if 0 < o.imageCount then 4 else 0)
    + (if 0 < o.imageCount ∧ (1 : ℚ) / 2 < (o.imagesWithAlt : ℚ) / (o.imageCount : ℚ)
       then 3 else 0))

/-- `analyzeNetworkMonitoring`: 10 with an active debug session holding
network requests, 5 otherwise, fallback 3 on exception. -/
def analyzeNetworkMonitoring (o : AIObservabilityObs) : ℚ :=
  if o.networkThrows then 3 else if o.networkActive then 10 else 5

/-- `calculateIntelligenceBonus`: up to 5 bonus points from element ratios.
JS divides the raw counts; with a zero denominator JS produces NaN or
Infinity while rational division yields 0 — unreachable on real pages, where
the total element count dominates both numerators, and irrelevant to the range
bounds since every branch adds a fixed nonnegative amount. -/
def calculateIntelligenceBonus (o : AIObservabilityObs) : ℚ :=
  (if (1 : ℚ) / 10 < (o.testableElements : ℚ) / (o.totalElements : ℚ) then 2 else 0)
  + (if (1 : ℚ) / 20 < (o.observableElements : ℚ) / (o.totalElements : ℚ) then 2 else 0)
  + (if 10 < o.observableElements then 1 else 0)

/-- `scoreAIObservability` (ai-testability-scorer.js, lines 56-104): the five
sub-scores plus the intelligence bonus clamped to 100; the outer catch returns
the fallback score 20. -/
def scoreAIObservability (o : AIObservabilityObs) : ℚ :=
  if o.analysisThrows then 20
  else min 100 (analyzeDataTestAttributes o.dataTest + analyzeStateCapture o
    + analyzeErrorVisibility o + analyzeVisualCapabilities o
    + analyzeNetworkMonitoring o + calculateIntelligenceBonus o)

/-- Observation bag consumed by `analyzeControllability` (comprehensive
analyzer, lines 121-177). -/
structure ControllabilityObs where
  inputFieldCount : ℤ
  fillThrows : Bool
  fillEchoes : Bool
  interactiveElements : ℤ
  urlStable : Bool
  buttons : ℤ
  links : ℤ
  analysisThrows : Bool

/-- Input-precision sub-metric of `analyzeControllability`: 30 when a filled
test value reads back exactly, 15 when it differs, 10 when filling raises, 0
when there is no input field at all. -/
def inputPrecisionScore (o : ControllabilityObs) : ℚ :=
  if 0 < o.inputFieldCount then
    (if o.fillThrows then 10 else if o.fillEchoes then 30 else 15)
  else 0

/-- `analyzeControllability`: input precision + `Math.min(25, interactive * 2)`
+ reload determinism + `Math.min(20, (buttons + links) * 1.5)`; the outer
catch returns the fallback score 25. Note the `Math.min` calls have no lower
clamp. -/
def analyzeControllability (o : ControllabilityObs) : ℚ :=
  if o.analysisThrows then 25
  else inputPrecisionScore o
    + min 25 ((o.interactiveElements : ℚ) * 2)
    + (if o.urlStable then 25 else 15)
    + min 20 (((o.buttons : ℚ) + (o.links : ℚ)) * (3 / 2))

/-- Observation bag consumed by `analyzeUnbugginess` (comprehensive analyzer,
lines 380-438). -/
structure UnbugginessObs where
  jsErrors : ℤ
  consoleErrors : ℤ
  errorElements : ℤ
  brokenImages : ℤ
  analysisThrows : Bool

/-- `analyzeUnbugginess`: deduction-based error score, error-handling
presence, and broken-image robustness, floored at 0 by the final `Math.max`;
the outer catch returns the fallback score 60. -/
def analyzeUnbugginess (o : UnbugginessObs) : ℚ :=
  if o.analysisThrows then 60
  else max 0 ((40 - min 40 (((o.jsErrors : ℚ) + (o.consoleErrors : ℚ)) * 5))
    + (if 0 < o.errorElements then (35 : ℚ) else 20)
    + (25 - min 25 ((o.brokenImages : ℚ) * 5)))

/-- An observation bag with a large negative interactive-element count and
negative button count, as the claim's "negative counts" scenario demands. -/
def negativeCountObs : ControllabilityObs :=
  { inputFieldCount := 0, fillThrows := false, fillEchoes := false,
    interactiveElements := -100, urlStable := true, buttons := -100,
    links := 0, analysisThrows := false }

/-- C3 counterexample: with a negative count the controllability score drops
far below 0 — `Math.min(25, n * 2)` has no lower clamp, so the claimed [0,100]
range fails for observation sets with negative counts. -/
theorem analyzeControllability_negative_breaks_range :
    analyzeControllability negativeCountObs < 0 := by
  simp only [analyzeControllability, inputPrecisionScore, negativeCountObs]
  norm_num [min_def]

theorem inputPrecisionScore_nonneg (o : ControllabilityObs) :
    0 ≤ inputPrecisionScore o := by
  unfold inputPrecisionScore; split_ifs <;> norm_num

theorem inputPrecisionScore_le_30 (o : ControllabilityObs) :
    inputPrecisionScore o ≤ 30 := by
  unfold inputPrecisionScore; split_ifs <;> norm_num

theorem analyzeControllability_bounds (o : ControllabilityObs)
    (hi : 0 ≤ o.interactiveElements) (hbl : 0 ≤ o.buttons + o.links) :
    0 ≤ analyzeControllability o ∧ analyzeControllability o ≤ 100 := by
  by_cases ht : o.analysisThrows = true
  · rw [analyzeControllability, if_pos ht]; norm_num
  · rw [analyzeControllability, if_neg ht]
    have h1 := inputPrecisionScore_nonneg o
    have h1b := inputPrecisionScore_le_30 o
    have hiq : (0 : ℚ) ≤ (o.interactiveElements : ℚ) := by exact_mod_cast hi
    have h2 : (0 : ℚ) ≤ min 25 ((o.interactiveElements : ℚ) * 2) :=
      le_min (by norm_num) (by linarith)
    have h2b : min 25 ((o.interactiveElements : ℚ) * 2) ≤ 25 := min_le_left _ _
    have h3 : (15 : ℚ) ≤ (if o.urlStable then (25 : ℚ) else 15) := by
      split_ifs <;> norm_num
    have h3b : (if o.urlStable then (25 : ℚ) else 15) ≤ 25 := by
      split_ifs <;> norm_num
    have hblq : (0 : ℚ) ≤ (o.buttons : ℚ) + (o.links : ℚ) := by exact_mod_cast hbl
    have h4 : (0 : ℚ) ≤ min 20 (((o.buttons : ℚ) + (o.links : ℚ)) * (3 / 2)) :=
      le_min (by norm_num) (by linarith)
    have h4b : min 20 (((o.buttons : ℚ) + (o.links : ℚ)) * (3 / 2)) ≤ 20 :=
      min_le_left _ _
    exact ⟨by linarith, by linarith⟩

theorem analyzeUnbugginess_bounds (o : UnbugginessObs)
    (he : 0 ≤ o.jsErrors + o.consoleErrors) (hb : 0 ≤ o.brokenImages) :
    0 ≤ analyzeUnbugginess o ∧ analyzeUnbugginess o ≤ 100 := by
  by_cases ht : o.analysisThrows = true
  · rw [analyzeUnbugginess, if_pos ht]; norm_num
  · rw [analyzeUnbugginess, if_neg ht]
    refine ⟨le_max_left 0 _, ?_⟩
    have hec : (0 : ℚ) ≤ ((o.jsErrors : ℚ) + (o.consoleErrors : ℚ)) * 5 := by
      have : (0 : ℚ) ≤ (o.jsErrors : ℚ) + (o.consoleErrors : ℚ) := by exact_mod_cast he
      linarith
    have hbc : (0 : ℚ) ≤ (o.brokenImages : ℚ) * 5 := by
      have : (0 : ℚ) ≤ (o.brokenImages : ℚ) := by exact_mod_cast hb
      linarith
    have h1 : (0 : ℚ) ≤ min 40 (((o.jsErrors : ℚ) + (o.consoleErrors : ℚ)) * 5) :=
      le_min (by norm_num) hec
    have h2 : (0 : ℚ) ≤ min 25 ((o.brokenImages : ℚ) * 5) := le_min (by norm_num) hbc
    have h3 : (if 0 < o.errorElements then (35 : ℚ) else 20) ≤ 35 := by
      split_ifs <;> norm_num
    apply max_le (by norm_num)
    linarith

theorem analyzeDataTestAttributes_bounds (elems : List DataTestElement) :
    0 ≤ analyzeDataTestAttributes elems ∧ analyzeDataTestAttributes elems ≤ 30 := by
  by_cases h : elems.length = 0
  · rw [analyzeDataTestAttributes, if_pos h]; norm_num
  · rw [analyzeDataTestAttributes, if_neg h]
    constructor
    · positivity
    · exact_mod_cast Nat.min_le_left 30 _

theorem analyzeStateCapture_bounds (o : AIObservabilityObs) :
    0 ≤ analyzeStateCapture o ∧ analyzeStateCapture o ≤ 25 := by
  by_cases h : o.stateCaptureThrows = true
  · rw [analyzeStateCapture, if_pos h]; norm_num
  · rw [analyzeStateCapture, if_neg h]
    refine ⟨le_min (by norm_num) ?_, min_le_left _ _⟩
    have a1 : (0 : ℚ) ≤ if o.localStorageNonempty || o.sessionStorageNonempty then 10 else 0 := by
      split_ifs <;> norm_num
    have a2 : (0 : ℚ) ≤ if o.hasHistory then 5 else 0 := by split_ifs <;> norm_num
    have a3 : (0 : ℚ) ≤ if o.readyComplete then 5 else 0 := by split_ifs <;> norm_num
    have a4 : (0 : ℚ) ≤ if o.hasCustomState then 5 else 0 := by split_ifs <;> norm_num
    linarith

theorem analyzeErrorVisibility_bounds (o : AIObservabilityObs) :
    0 ≤ analyzeErrorVisibility o ∧ analyzeErrorVisibility o ≤ 20 := by
  by_cases h : o.errorVisibilityThrows = true
  · rw [analyzeErrorVisibility, if_pos h]; norm_num
  · rw [analyzeErrorVisibility, if_neg h]
    refine ⟨le_min (by norm_num) ?_, min_le_left _ _⟩
    have a1 : (0 : ℚ) ≤ if 0 < (o.dataTest.filter
        (fun e => e.category == "feedback" || strIncludes e.testId "error")).length
        then 10 else 0 := by split_ifs <;> norm_num
    have a2 : (0 : ℚ) ≤ if 0 < o.visibleErrorCount then 5 else 0 := by
      split_ifs <;> norm_num
    have a3 : (0 : ℚ) ≤ if o.consoleErrorCount = 0 then 5 else 0 := by
      split_ifs <;> norm_num
    linarith

theorem analyzeVisualCapabilities_bounds (o : AIObservabilityObs) :
    0 ≤ analyzeVisualCapabilities o ∧ analyzeVisualCapabilities o ≤ 15 := by
  by_cases h : o.visualThrows = true
  · rw [analyzeVisualCapabilities, if_pos h]; norm_num
  · rw [analyzeVisualCapabilities, if_neg h]
    refine ⟨le_min (by norm_num) ?_, min_le_left _ _⟩
    have a1 : (0 : ℚ) ≤ if 0 < o.imageCount then 4 else 0 := by split_ifs <;> norm_num
    have a2 : (0 : ℚ) ≤ if 0 < o.imageCount ∧
        (1 : ℚ) / 2 < (o.imagesWithAlt : ℚ) / (o.imageCount : ℚ) then 3 else 0 := by
      split_ifs <;> norm_num
    linarith

theorem analyzeNetworkMonitoring_bounds (o : AIObservabilityObs) :
    0 ≤ analyzeNetworkMonitoring o ∧ analyzeNetworkMonitoring o ≤ 10 := by
  unfold analyzeNetworkMonitoring
  split_ifs <;> norm_num

theorem calculateIntelligenceBonus_bounds (o : AIObservabilityObs) :
    0 ≤ calculateIntelligenceBonus o ∧ calculateIntelligenceBonus o ≤ 5 := by
  unfold calculateIntelligenceBonus
  split_ifs <;> norm_num

theorem scoreAIObservability_bounds (o : AIObservabilityObs) :
    0 ≤ scoreAIObservability o ∧ scoreAIObservability o ≤ 100 := by
  unfold scoreAIObservability
  split_ifs with h
  · norm_num
  · have h1 := analyzeDataTestAttributes_bounds o.dataTest
    have h2 := analyzeStateCapture_bounds o
    have h3 := analyzeErrorVisibility_bounds o
    have h4 := analyzeVisualCapabilities_bounds o
    have h5 := analyzeNetworkMonitoring_bounds o
    have h6 := calculateIntelligenceBonus_bounds o
    exact ⟨le_min (by norm_num) (by linarith [h1.1, h2.1, h3.1, h4.1, h5.1, h6.1]),
      min_le_left _ _⟩

/-- C3 (amended): for observation sets with nonnegative counts every computed
principle score lies in [0,100]; the clamps are only correct for nonnegative
inputs (negative counts escape the missing lower clamps, see the
counterexample). -/
theorem principle_scores_in_range (c : ControllabilityObs) (u : UnbugginessObs)
    (a : AIObservabilityObs)
    (hci : 0 ≤ c.interactiveElements) (hcb : 0 ≤ c.buttons + c.links)
    (hue : 0 ≤ u.jsErrors + u.consoleErrors) (hub : 0 ≤ u.brokenImages) :
    (0 ≤ analyzeControllability c ∧ analyzeControllability c ≤ 100)
  ∧ (0 ≤ analyzeUnbugginess u ∧ analyzeUnbugginess u ≤ 100)
  ∧ (0 ≤ scoreAIObservability a ∧ scoreAIObservability a ≤ 100) :=
  ⟨analyzeControllability_bounds c hci hcb,
   analyzeUnbugginess_bounds u hue hub,
   scoreAIObservability_bounds a⟩

/-- All-zero observation bags used to instantiate range theorems. -/
def zeroControllabilityObs : ControllabilityObs :=
  { inputFieldCount := 0, fillThrows := false, fillEchoes := false,
    interactiveElements := 0, urlStable := false, buttons := 0, links := 0,
    analysisThrows := false }

def zeroUnbugginessObs : UnbugginessObs :=
  { jsErrors := 0, consoleErrors := 0, errorElements := 0, brokenImages := 0,
    analysisThrows := false }

def zeroAIObservabilityObs : AIObservabilityObs :=
  { dataTest := [], totalElements := 0, testableElements := 0,
    observableElements := 0, localStorageNonempty := false,
    sessionStorageNonempty := false, hasHistory := false, readyComplete := false,
    hasCustomState := false, stateCaptureThrows := false, visibleErrorCount := 0,
    consoleErrorCount := 0, errorVisibilityThrows := false, visualThrows := false,
    imageCount := 0, imagesWithAlt := 0, networkActive := false,
    networkThrows := false, analysisThrows := false }

/-- C3 witness: the range theorem applied to concrete all-zero observation
bags. -/
theorem principle_scores_in_range_witness :
    (0 ≤ analyzeControllability zeroControllabilityObs
      ∧ analyzeControllability zeroControllabilityObs ≤ 100)
  ∧ (0 ≤ analyzeUnbugginess zeroUnbugginessObs
      ∧ analyzeUnbugginess zeroUnbugginessObs ≤ 100)
  ∧ (0 ≤ scoreAIObservability zeroAIObservabilityObs
      ∧ scoreAIObservability zeroAIObservabilityObs ≤ 100) :=
  principle_scores_in_range zeroControllabilityObs zeroUnbugginessObs
    zeroAIObservabilityObs (by norm_num [zeroControllabilityObs])
    (by norm_num [zeroControllabilityObs]) (by norm_num [zeroUnbugginessObs])
    (by norm_num [zeroUnbugginessObs])

/-- The fixed advice table embedded in the `switch` of
`generateAIRecommendations` (comprehensive analyzer, lines 621-652); the
`switch` default leaves the suggestion as the empty string. -/
def suggestionFor (principle : String) : String :=
  if principle == "observability" then
    "Add comprehensive data-test attributes, implement state monitoring, and enhance error visibility"
  else if principle == "controllability" then
    "Improve input validation, add loading states, and enhance interaction feedback"
  else if principle == "algorithmicSimplicity" then
    "Reduce page complexity, simplify workflows, and improve semantic structure"
  else if principle == "algorithmicTransparency" then
    "Add progress indicators, improve feedback messages, and reduce black-box operations"
  else if principle == "algorithmicStability" then
    "Implement consistent data-test patterns and improve element stability"
  else if principle == "explainability" then
    "Add semantic HTML elements, implement ARIA labels, and improve documentation"
  else if principle == "unbugginess" then
    "Fix JavaScript errors, improve error handling, and enhance robustness"
  else if principle == "smallness" then
    "Break down large components, reduce page size, and improve modularity"
  else if principle == "decomposability" then
    "Improve component separation, add isolated test targets, and enhance modularity"
  else if principle == "similarity" then
    "Follow standard UI patterns, implement conventional design, and use familiar technologies"
  else ""

/-- A recommendation record as pushed by `generateAIRecommendations`
(principle, score, priority, suggestion); the `aiReasoning` field is a fixed
template over the principle name and score and carries no further data. -/
structure Recommendation where
  principle : String
  score : ℚ
  priority : String
  suggestion : String
  deriving DecidableEq

/-- The record pushed for one below-threshold entry in
`generateAIRecommendations`: priority ladder score < 40 Critical, < 50 High,
else Medium. -/
def mkRecommendation (e : String × ℚ) : Recommendation :=
  { principle := e.1, score := e.2,
    priority := if e.2 < 40 then "Critical" else if e.2 < 50 then "High" else "Medium",
    suggestion := suggestionFor e.1 }

/-- `generateAIRecommendations` (comprehensive analyzer, lines 613-666):
iterates `Object.entries(this.principles)` in declaration order and pushes one
recommendation for each principle scoring below 60. -/
def generateAIRecommendations (p : PrincipleScores) : List Recommendation :=
  (p.entries.filter (fun e => decide (e.2 < 60))).map mkRecommendation

/-- The advice table of `getRecommendationForPrinciple`
(tests/testability-principles.spec.js, lines 749-764). -/
def getRecommendationForPrinciple (principle : String) : String :=
  if principle == "observability" then
    "Add more data-test attributes, implement comprehensive logging, add visual feedback for state changes"
  else if principle == "controllability" then
    "Improve input validation feedback, add loading states, ensure deterministic behavior"
  else if principle == "algorithmicSimplicity" then
    "Simplify workflows, reduce steps for basic operations, clarify input-output relationships"
  else if principle == "algorithmicTransparency" then
    "Add progress indicators, provide better error messages, expose API behavior"
  else if principle == "algorithmicStability" then
    "Implement better error boundaries, add regression test coverage, improve state management"
  else if principle == "explainability" then
    "Add semantic HTML, improve accessibility attributes, enhance documentation"
  else if principle == "unbugginess" then
    "Implement comprehensive error handling, add input validation, improve robustness"
  else if principle == "smallness" then
    "Break down complex components, reduce page complexity, optimize network requests"
  else if principle == "decomposability" then
    "Improve component separation, add more testable interfaces, enhance modularity"
  else if principle == "similarity" then
    "Use standard web patterns, implement familiar UI conventions, follow common design practices"
  else "Review and improve this testability aspect"

/-- `generateRecommendations` (tests/testability-principles.spec.js, lines
725-747): the `if score < 50 push High / else if score < 70 push Medium`
cascade, equivalently a filter below 70 with a High/Medium split at 50. -/
def generateRecommendations (p : PrincipleScores) : List Recommendation :=
  (p.entries.filter (fun e => decide (e.2 < 70))).map (fun e : String × ℚ =>
    { principle := e.1, score := e.2,
      priority := if e.2 < 50 then "High" else "Medium",
      suggestion := getRecommendationForPrinciple e.1 })

/-- Number of recommendations in a list that belong to a given principle. -/
def recCount (l : List Recommendation) (name : String) : ℕ :=
  (l.filter (fun r => r.principle == name)).length

/-- A score map whose observability score 65 sits between the analyzer
threshold 60 and the claimed threshold 70. -/
def borderlineScores : PrincipleScores :=
  ⟨65, 100, 100, 100, 100, 100, 100, 100, 100, 100⟩

/-- C4 counterexample: observability scores 65, below the claimed acceptable
threshold of 70, yet `generateAIRecommendations` (whose real threshold is 60)
emits no recommendation at all. -/
theorem generateAIRecommendations_misses_65 :
    borderlineScores.observability < 70 ∧
    generateAIRecommendations borderlineScores = [] := by
  constructor
  · norm_num [borderlineScores]
  · decide

theorem recCount_generateAI (p : PrincipleScores) (name : String) :
    recCount (generateAIRecommendations p) name =
      p.entries.countP (fun e => e.1 == name && decide (e.2 < 60)) := by
  rw [recCount, generateAIRecommendations, ← List.countP_eq_length_filter,
    List.countP_map, List.countP_filter]
  rfl

theorem recCount_generateRecommendations (p : PrincipleScores) (name : String) :
    recCount (generateRecommendations p) name =
      p.entries.countP (fun e => e.1 == name && decide (e.2 < 70)) := by
  rw [recCount, generateRecommendations, ← List.countP_eq_length_filter,
    List.countP_map, List.countP_filter]
  rfl

/-- C4 (amended): each generator emits exactly one recommendation per
principle scoring below its own threshold and none otherwise — but the
threshold is 60 in `generateAIRecommendations` and 70 in the test-suite
`generateRecommendations`, not a uniform 70. -/
theorem recommendation_per_principle (p : PrincipleScores) (pr : String) (sc : ℚ)
    (h : (pr, sc) ∈ p.entries) :
    recCount (generateAIRecommendations p) pr = (if sc < 60 then 1 else 0)
  ∧ recCount (generateRecommendations p) pr = (if sc < 70 then 1 else 0) := by
  rw [recCount_generateAI, recCount_generateRecommendations]
  simp only [PrincipleScores.entries, List.mem_cons, List.not_mem_nil, or_false,
    Prod.mk.injEq] at h
  rcases h with h | h | h | h | h | h | h | h | h | h
  all_goals obtain ⟨rfl, rfl⟩ := h
  all_goals constructor
  all_goals simp [PrincipleScores.entries, List.countP_cons, List.countP_nil]

/-- C4 witness: the per-principle count theorem applied at the borderline map
and the observability entry. -/
theorem recommendation_per_principle_witness :
    (recCount (generateAIRecommendations borderlineScores) "observability"
      = if (65 : ℚ) < 60 then 1 else 0)
  ∧ (recCount (generateRecommendations borderlineScores) "observability"
      = if (65 : ℚ) < 70 then 1 else 0) :=
  recommendation_per_principle borderlineScores "observability" 65 (by decide)

/-- The aggregation step over a possibly-partial principle assignment. The
analyzer constructor pre-initializes every principle to 0 and
`runCompleteAnalysis` (lines 709-712) divides the sum of
`Object.values(this.principles)` by 10 with no completeness check: a principle
whose analysis never ran keeps its initial 0. The result is wrapped in
`Except` to express the failure mode the claim prescribes; the source has no
error path and no ConfigurationError anywhere. -/
def aggregateScores (m : String → Option ℚ) : Except String ℤ :=
  .ok (jsRound ((principleNames.map (fun n => (m n).getD 0)).sum / 10))

/-- Modelled from the spec (section 4.2), for comparison with the code: an
aggregator that fails with a ConfigurationError when the input map is missing
any required principle. -/
def specAggregate (m : String → Option ℚ) : Except String ℤ :=
  if (principleNames.all (fun n => (m n).isSome)) = true then
    .ok (jsRound ((principleNames.map (fun n => (m n).getD 0)).sum / 10))
  else .error "ConfigurationError"

/-- C5 counterexample: on a map missing every required principle the code
aggregation still succeeds (silently producing 0, each missing principle
contributing its initial 0) where the spec-modelled aggregator fails. -/
theorem aggregateScores_succeeds_on_missing :
    aggregateScores (fun _ => none) = Except.ok 0 ∧
    specAggregate (fun _ => none) = Except.error "ConfigurationError" := by
  constructor
  · show Except.ok (jsRound ((principleNames.map fun _ => (0 : ℚ)).sum / 10)) = _
    have : ((principleNames.map fun _ => (0 : ℚ)).sum / 10) = 0 := by
      norm_num [principleNames]
    rw [this]
    have h0 : jsRound 0 = 0 := by
      rw [jsRound_eq_round]; norm_num
    rw [h0]
  · rfl

/-- C5 (amended): the aggregation step never fails — it always returns a
result, substituting the initial 0 for any missing principle — and it agrees
with the spec-modelled aggregator exactly when the map is complete. -/
theorem aggregateScores_total (m : String → Option ℚ) :
    (∃ z, aggregateScores m = Except.ok z)
  ∧ ((principleNames.all (fun n => (m n).isSome)) = true →
      aggregateScores m = specAggregate m) := by
  refine ⟨⟨_, rfl⟩, fun h => ?_⟩
  rw [specAggregate, if_pos h, aggregateScores]

/-- C5 witness: the totality-and-agreement theorem at a concrete complete
map. -/
theorem aggregateScores_total_witness :
    (∃ z, aggregateScores (fun _ => some 50) = Except.ok z)
  ∧ aggregateScores (fun _ => some 50) = specAggregate (fun _ => some 50) :=
  ⟨(aggregateScores_total (fun _ => some 50)).1,
   (aggregateScores_total (fun _ => some 50)).2 (by decide)⟩

/-- The `priorityOrder` table in `getTopRecommendations` (unnamed/part_006,
lines 488-507); a priority outside the table indexes to JS `undefined`. -/
def priorityOrder : String → Option ℤ
  | "Critical" => some 3
  | "High" => some 2
  | "Medium" => some 1
  | _ => none

/-- The sort comparator `priorityOrder[b.priority] - priorityOrder[a.priority]`:
when either lookup is `undefined` the subtraction is NaN, which the JS sort
algorithm treats as comparator value 0. -/
def recCompare (a b : Recommendation) : ℤ :=
  match priorityOrder a.priority, priorityOrder b.priority with
  | some x, some y => y - x
  | _, _ => 0

/-- Stable insertion sort realizing JS `Array.prototype.sort` (stable per the
language spec) under the comparator `recCompare`: an element moves past
another only when the comparator strictly orders them. -/
def sortInsert (x : Recommendation) : List Recommendation → List Recommendation
  | [] => [x]
  | y :: ys => if recCompare x y ≤ 0 then x :: y :: ys else y :: sortInsert x ys

def sortRecs : List Recommendation → List Recommendation
  | [] => []
  | x :: xs => sortInsert x (sortRecs xs)

/-- The grouping key of the reduce in `getTopRecommendations`. -/
def groupKey (r : Recommendation) : String := r.principle ++ "-" ++ r.priority

/-- The grouping reduce of `getTopRecommendations`: keeps the first
recommendation for each `principle-priority` key; `Object.values` then yields
them in first-insertion order. -/
def dedupGo (seen : List String) : List Recommendation → List Recommendation
  | [] => []
  | r :: rs =>
    if groupKey r ∈ seen then dedupGo seen rs
    else r :: dedupGo (groupKey r :: seen) rs

/-- `getTopRecommendations(results)` (unnamed/part_006, lines 488-507): flatten
the per-result recommendation lists, group by principle-priority key keeping
first occurrences, sort by descending priority, take the first 10. -/
def getTopRecommendations (results : List (List Recommendation)) : List Recommendation :=
  (sortRecs (dedupGo [] results.flatten)).take 10

/-- Effective numeric priority used to state ordering (0 for the unreachable
unknown-priority case). -/
def priorityVal (r : Recommendation) : ℤ := (priorityOrder r.priority).getD 0

/-- A recommendation whose priority string is one of the three the generators
produce. -/
def knownPriority (r : Recommendation) : Prop :=
  (priorityOrder r.priority).isSome = true

theorem knownPriority_mkRecommendation (e : String × ℚ) :
    knownPriority (mkRecommendation e) := by
  unfold knownPriority mkRecommendation
  dsimp only
  split_ifs <;> rfl

theorem knownPriority_of_mem_generate {z : Recommendation} {p : PrincipleScores}
    (h : z ∈ generateAIRecommendations p) : knownPriority z := by
  rw [generateAIRecommendations] at h
  obtain ⟨e, _, rfl⟩ := List.mem_map.mp h
  exact knownPriority_mkRecommendation e

theorem recCompare_nonpos_iff {a b : Recommendation}
    (ha : knownPriority a) (hb : knownPriority b) :
    recCompare a b ≤ 0 ↔ priorityVal b ≤ priorityVal a := by
  obtain ⟨x, hx⟩ := Option.isSome_iff_exists.mp ha
  obtain ⟨y, hy⟩ := Option.isSome_iff_exists.mp hb
  rw [recCompare, priorityVal, priorityVal, hx, hy]
  simp only [Option.getD_some]
  omega

theorem mem_sortInsert {z x : Recommendation} {l : List Recommendation}
    (h : z ∈ sortInsert x l) : z = x ∨ z ∈ l := by
  induction l with
  | nil => simpa [sortInsert] using h
  | cons y ys ih =>
    rw [sortInsert] at h
    split_ifs at h with hc
    · simpa using h
    · rcases List.mem_cons.mp h with rfl | h2
      · exact Or.inr (List.mem_cons_self _ _)
      · rcases ih h2 with rfl | h3
        · exact Or.inl rfl
        · exact Or.inr (List.mem_cons_of_mem _ h3)

theorem sortInsert_pairwise {x : Recommendation} {l : List Recommendation}
    (hx : knownPriority x) (hall : ∀ z ∈ l, knownPriority z)
    (hl : l.Pairwise (fun a b => priorityVal b ≤ priorityVal a)) :
    (sortInsert x l).Pairwise (fun a b => priorityVal b ≤ priorityVal a) := by
  induction l with
  | nil => simp [sortInsert]
  | cons y ys ih =>
    have hy : knownPriority y := hall y (List.mem_cons_self _ _)
    have hys : ∀ z ∈ ys, knownPriority z := fun z hz => hall z (List.mem_cons_of_mem _ hz)
    rw [sortInsert]
    split_ifs with hc
    · have hxy : priorityVal y ≤ priorityVal x := (recCompare_nonpos_iff hx hy).mp hc
      refine List.Pairwise.cons ?_ hl
      intro z hz
      rcases List.mem_cons.mp hz with rfl | hz2
      · exact hxy
      · exact le_trans ((List.pairwise_cons.mp hl).1 z hz2) hxy
    · have hyx : priorityVal x ≤ priorityVal y := by
        obtain ⟨a, haeq⟩ := Option.isSome_iff_exists.mp hx
        obtain ⟨b, hbeq⟩ := Option.isSome_iff_exists.mp hy
        have hcxy : recCompare x y = b - a := by rw [recCompare, haeq, hbeq]
        have h1 : ¬ recCompare x y ≤ 0 := hc
        rw [hcxy] at h1
        rw [priorityVal, priorityVal, haeq, hbeq]
        simp only [Option.getD_some]
        omega
      refine List.Pairwise.cons ?_ (ih hys (List.pairwise_cons.mp hl).2)
      intro z hz
      rcases mem_sortInsert hz with rfl | hz2
      · exact hyx
      · exact (List.pairwise_cons.mp hl).1 z hz2

theorem mem_sortRecs {z : Recommendation} {l : List Recommendation}
    (h : z ∈ sortRecs l) : z ∈ l := by
  induction l with
  | nil => simp [sortRecs] at h
  | cons x xs ih =>
    rw [sortRecs] at h
    rcases mem_sortInsert h with rfl | h2
    · exact List.mem_cons_self _ _
    · exact List.mem_cons_of_mem _ (ih h2)

theorem sortRecs_pairwise {l : List Recommendation}
    (hall : ∀ z ∈ l, knownPriority z) :
    (sortRecs l).Pairwise (fun a b => priorityVal b ≤ priorityVal a) := by
  induction l with
  | nil => simp [sortRecs]
  | cons x xs ih =>
    rw [sortRecs]
    exact sortInsert_pairwise (hall x (List.mem_cons_self _ _))
      (fun z hz => hall z (List.mem_cons_of_mem _ (mem_sortRecs hz)))
      (ih (fun z hz => hall z (List.mem_cons_of_mem _ hz)))

theorem mem_dedupGo {z : Recommendation} {seen : List String}
    {l : List Recommendation} (h : z ∈ dedupGo seen l) : z ∈ l := by
  induction l generalizing seen with
  | nil => simp [dedupGo] at h
  | cons r rs ih =>
    rw [dedupGo] at h
    split_ifs at h with hc
    · exact List.mem_cons_of_mem _ (ih h)
    · rcases List.mem_cons.mp h with rfl | h2
      · exact List.mem_cons_self _ _
      · exact List.mem_cons_of_mem _ (ih h2)

/-- A score map producing a Medium recommendation (observability 55) before a
Critical one (controllability 30) in declaration order. -/
def mixedScores : PrincipleScores :=
  ⟨55, 30, 100, 100, 100, 100, 100, 100, 100, 100⟩

/-- C6 counterexample: the list emitted by `generateAIRecommendations` is not
sorted by descending priority severity — on `mixedScores` the Medium
observability entry precedes the Critical controllability entry. -/
theorem generateAIRecommendations_not_priority_sorted :
    ¬ (generateAIRecommendations mixedScores).Pairwise
        (fun a b => priorityVal b ≤ priorityVal a) := by
  decide

/-- C6 (amended): `generateAIRecommendations` emits its list in the fixed
principle declaration order regardless of priority (its principal sequence is
a subsequence of the declaration order); descending-priority order is only
produced by `getTopRecommendations`, whose stable sort yields a list with
pairwise non-increasing priority severity (ties keeping the grouped
first-occurrence order, which follows declaration order within one result). -/
theorem recommendations_ordering (p : PrincipleScores)
    (results : List PrincipleScores) :
    List.Sublist ((generateAIRecommendations p).map Recommendation.principle)
      principleNames
  ∧ (getTopRecommendations (results.map generateAIRecommendations)).Pairwise
      (fun a b => priorityVal b ≤ priorityVal a) := by
  constructor
  · have h1 : (generateAIRecommendations p).map Recommendation.principle
        = (p.entries.filter (fun e => decide (e.2 < 60))).map Prod.fst := by
      rw [generateAIRecommendations, List.map_map]; rfl
    have h2 : principleNames = p.entries.map Prod.fst := rfl
    rw [h1, h2]
    exact (List.filter_sublist _).map Prod.fst
  · have hall : ∀ z ∈ dedupGo [] (results.map generateAIRecommendations).flatten,
        knownPriority z := by
      intro z hz
      have hz2 := mem_dedupGo hz
      obtain ⟨l, hl, hzl⟩ := List.mem_flatten.mp hz2
      obtain ⟨ps, _, rfl⟩ := List.mem_map.mp hl
      exact knownPriority_of_mem_generate hzl
    exact (sortRecs_pairwise hall).sublist (List.take_sublist _ _)

/-- Observation bag consumed by `analyzeObservability` (comprehensive
analyzer, lines 52-115). -/
structure ObservabilityObs where
  localStorageCount : ℤ
  sessionStorageCount : ℤ
  cookiesNonempty : Bool
  readyComplete : Bool
  dataTestCount : ℤ
  errorElementCount : ℤ
  visualElementCount : ℤ
  networkActive : Bool

/-- State-visibility sub-metric (25 points). -/
def obsStateScore (o : ObservabilityObs) : ℚ :=
  (if 0 < o.localStorageCount then 8 else 0)
  + (if 0 < o.sessionStorageCount then 7 else 0)
  + (if o.cookiesNonempty then 5 else 0) + (if o.readyComplete then 5 else 0)

/-- Data-test sub-metric: `Math.min(25, Math.floor(count * 2.5))`. -/
def obsDataTestScore (o : ObservabilityObs) : ℚ :=
  min 25 ((⌊(o.dataTestCount : ℚ) * (5 / 2)⌋ : ℤ) : ℚ)

/-- Error-visibility sub-metric: 20 when error elements exist, else 10. -/
def obsErrorScore (o : ObservabilityObs) : ℚ :=
  if 0 < o.errorElementCount then 20 else 10

/-- Visual sub-metric: `Math.min(15, count * 2)`. -/
def obsVisualScore (o : ObservabilityObs) : ℚ :=
  min 15 ((o.visualElementCount : ℚ) * 2)

/-- Network sub-metric: 15 with an active debug session, else 5. -/
def obsNetworkScore (o : ObservabilityObs) : ℚ :=
  if o.networkActive then 15 else 5

/-- `analyzeObservability` (comprehensive analyzer): all five sub-metrics run
inside one try block; an exception at any step is caught at lines 108-111 and
the whole accumulated score is replaced by the fallback 20. `failAt` names the
step that throws (`none` when the analysis completes). -/
def analyzeObservability (o : ObservabilityObs) (failAt : Option ℕ) :
    Except String ℚ :=
  match failAt with
  | some _ => .ok 20
  | none => .ok (obsStateScore o + obsDataTestScore o + obsErrorScore o
      + obsVisualScore o + obsNetworkScore o)

/-- Modelled from the spec (section 7), for comparison with the code: the
claimed local recovery replaces only the failed sub-metric with its
worst-case value at all-zero/false observations, leaving the other
sub-scores unchanged. -/
def specLocalRecovery (o : ObservabilityObs) (failAt : Option ℕ) : ℚ :=
  (if failAt = some 0 then 0 else obsStateScore o)
  + (if failAt = some 1 then 0 else obsDataTestScore o)
  + (if failAt = some 2 then 10 else obsErrorScore o)
  + (if failAt = some 3 then 0 else obsVisualScore o)
  + (if failAt = some 4 then 5 else obsNetworkScore o)

/-- An observation bag scoring the maximum on every sub-metric. -/
def richObservabilityObs : ObservabilityObs :=
  { localStorageCount := 1, sessionStorageCount := 1, cookiesNonempty := true,
    readyComplete := true, dataTestCount := 10, errorElementCount := 1,
    visualElementCount := 10, networkActive := true }

/-- C7 counterexample: when the network step fails on an otherwise perfect
page, the code returns the global fallback 20, not the 90 that the claimed
local per-part recovery would give — the rest of the score is discarded, not
preserved. -/
theorem analyzeObservability_discards_rest :
    analyzeObservability richObservabilityObs (some 4) = Except.ok 20
  ∧ specLocalRecovery richObservabilityObs (some 4) = 90 := by
  refine ⟨rfl, ?_⟩
  have hfloor : obsDataTestScore richObservabilityObs = 25 := by
    rw [obsDataTestScore]
    have h1 : ((richObservabilityObs.dataTestCount : ℚ)) * (5 / 2) = ((25 : ℤ) : ℚ) := by
      norm_num [richObservabilityObs]
    rw [h1, Int.floor_intCast]
    norm_num [min_def]
  rw [specLocalRecovery, hfloor]
  norm_num [obsStateScore, obsErrorScore, obsVisualScore, obsNetworkScore,
    richObservabilityObs, min_def, Option.some.injEq]

/-- C7 (amended): scoring never raises — every outcome is an ordinary value —
but an exception anywhere in a principle analysis replaces the entire
principle score with a fixed per-principle fallback (20 for observability in
both analyzers), discarding the other sub-scores; only a missing observation
read as zero/false degrades solely its own sub-metric, leaving the other
sub-metrics untouched. -/
theorem analyzeObservability_fallback (o : ObservabilityObs)
    (f : Option ℕ) :
    (∃ s, analyzeObservability o f = Except.ok s)
  ∧ (f.isSome = true → analyzeObservability o f = Except.ok 20)
  ∧ (f = none → analyzeObservability o f = Except.ok (obsStateScore o
      + obsDataTestScore o + obsErrorScore o + obsVisualScore o
      + obsNetworkScore o))
  ∧ analyzeObservability { o with dataTestCount := 0 } none
      = Except.ok (obsStateScore o
        + obsDataTestScore { o with dataTestCount := 0 }
        + obsErrorScore o + obsVisualScore o + obsNetworkScore o)
  ∧ (∀ a : AIObservabilityObs, a.analysisThrows = true →
      scoreAIObservability a = 20) := by
  refine ⟨?_, ?_, ?_, rfl, ?_⟩
  · cases f <;> exact ⟨_, rfl⟩
  · intro h
    cases f with
    | none => simp at h
    | some i => rfl
  · intro h
    subst h
    rfl
  · intro a h
    rw [scoreAIObservability, if_pos h]

/-- C7 witness: the fallback theorem at a concrete observation bag, once with
a failing step and once with none. -/
theorem analyzeObservability_fallback_witness :
    analyzeObservability richObservabilityObs (some 2) = Except.ok 20
  ∧ analyzeObservability richObservabilityObs none
      = Except.ok (obsStateScore richObservabilityObs
        + obsDataTestScore richObservabilityObs
        + obsErrorScore richObservabilityObs
        + obsVisualScore richObservabilityObs
        + obsNetworkScore richObservabilityObs) :=
  ⟨(analyzeObservability_fallback richObservabilityObs (some 2)).2.1 rfl,
   (analyzeObservability_fallback richObservabilityObs none).2.2.1 rfl⟩

/-- Observation bag consumed by `scoreAIControllability` and its
sub-analyses (ai-testability-scorer.js, lines 110-150 and 576-672). -/
structure AIControllabilityObs where
  textInputCount : ℤ
  fillEchoes : Bool
  fillPartial : Bool
  requiredInputs : ℤ
  typedInputs : ℤ
  inputThrows : Bool
  enabledButtonExists : Bool
  formCount : ℤ
  interactiveDataTest : ℤ
  stateThrows : Bool
  urlStable : Bool
  elementCountStable : Bool
  determinismThrows : Bool
  analysisThrows : Bool

/-- `analyzeInputPrecision`: exact echo 20 or partial echo 10, plus
validation and typed-input bonuses, clamped to 30; fallback 10 on
exception. -/
def analyzeInputPrecision (o : AIControllabilityObs) : ℚ :=
  if o.inputThrows then 10
  else min 30 ((if 0 < o.textInputCount then
      (if o.fillEchoes then 20 else if o.fillPartial then 10 else 0) else 0)
    + (if 0 < o.requiredInputs then 5 else 0)
    + (if 0 < o.typedInputs then 5 else 0))

/-- `analyzeStateControl`: enabled buttons among the first five, form
presence and data-test density, clamped to 25; fallback 10 on exception. -/
def analyzeStateControl (o : AIControllabilityObs) : ℚ :=
  if o.stateThrows then 10
  else min 25 ((if o.enabledButtonExists then 15 else 0)
    + (if 0 < o.formCount then 5 else 0)
    + (if 5 < o.interactiveDataTest then 5 else 0))

/-- `analyzeDeterminism`: reload URL stability and element-count stability,
clamped to 20; fallback 8 on exception. -/
def analyzeDeterminism (o : AIControllabilityObs) : ℚ :=
  if o.determinismThrows then 8
  else min 20 ((if o.urlStable then 10 else 0)
    + (if o.elementCountStable then 10 else 0))

/-- `scoreAIControllability` (lines 110-150). The class body later redefines
`analyzeInteractionReliability` and `analyzeAccessibilityIntegration` as
placeholder constants 10 and 8 (lines 1082-1083), and in a JS class body the
last definition of a method name wins, so the last two summands are those
constants. The outer catch returns the fallback 25. -/
def scoreAIControllability (o : AIControllabilityObs) : ℚ :=
  if o.analysisThrows then 25
  else analyzeInputPrecision o + analyzeStateControl o + analyzeDeterminism o
    + 10 + 8

/-- Observation bag for `scoreAIAlgorithmicSimplicity`. `complexityThrows`
marks the catch of `analyzeComplexity`, which substitutes the fixed default
metrics (totalElements 100, divElements 30, nestedLevels 10, scriptTags 5). -/
structure AISimplicityObs where
  totalElements : ℤ
  divElements : ℤ
  nestedLevels : ℤ
  scriptTags : ℤ
  complexityThrows : Bool
  analysisThrows : Bool

def effTotalElements (o : AISimplicityObs) : ℤ :=
  if o.complexityThrows then 100 else o.totalElements

def effDivElements (o : AISimplicityObs) : ℤ :=
  if o.complexityThrows then 30 else o.divElements

def effNestedLevels (o : AISimplicityObs) : ℤ :=
  if o.complexityThrows then 10 else o.nestedLevels

def effScriptTags (o : AISimplicityObs) : ℤ :=
  if o.complexityThrows then 5 else o.scriptTags

/-- `analyzeDOMComplexity`: starts at 40, subtracts element-count, nesting
and div-ratio penalties, floored at 0 by `Math.max`. -/
def analyzeDOMComplexity (o : AISimplicityObs) : ℚ :=
  max 0 (40
    - (if 1000 < effTotalElements o then 15
       else if 500 < effTotalElements o then 8
       else if 200 < effTotalElements o then 3 else 0)
    - (if 15 < effNestedLevels o then 10
       else if 10 < effNestedLevels o then 5 else 0)
    - (if (2 : ℚ) / 5 < (effDivElements o : ℚ) / (effTotalElements o : ℚ) then 8
       else if (3 : ℚ) / 10 < (effDivElements o : ℚ) / (effTotalElements o : ℚ)
         then 4 else 0))

/-- `analyzePredictability`: starts at 10, subtracts script-count and
complexity penalties, floored at 0. -/
def analyzePredictability (o : AISimplicityObs) : ℚ :=
  max 0 (10
    - (if 20 < effScriptTags o then 4 else if 10 < effScriptTags o then 2 else 0)
    - (if 1000 < effTotalElements o then 3 else 0))

/-- `scoreAIAlgorithmicSimplicity` (lines 156-192): the class body later
redefines `analyzeInteractionPatternSimplicity` and `analyzeSemanticStructure`
as placeholder constants 20 and 15 (lines 1084-1085), which win over the
earlier definitions; the outer catch returns the fallback 30. -/
def scoreAIAlgorithmicSimplicity (o : AISimplicityObs) : ℚ :=
  if o.analysisThrows then 30
  else analyzeDOMComplexity o + 20 + 15 + analyzePredictability o

/-- `scoreAIExplainability` (lines 198-239): every sub-analysis it calls is a
placeholder constant (lines 1086-1090), summing to 25 + 20 + 15 + 10 + 8 = 78;
the outer catch returns the fallback 35. -/
def scoreAIExplainability (throws : Bool) : ℚ := if throws then 35 else 78

/-- `scoreAIDecomposability` (lines 245-280): every sub-analysis is a
placeholder constant (lines 1091-1095), summing to 30 + 25 + 15 + 12 = 82;
the outer catch returns the fallback 40. -/
def scoreAIDecomposability (throws : Bool) : ℚ := if throws then 40 else 82

/-- The full observation bag of one `runAIAssessment` call. -/
structure AIAssessmentObs where
  observability : AIObservabilityObs
  controllability : AIControllabilityObs
  simplicity : AISimplicityObs
  explainabilityThrows : Bool
  decomposabilityThrows : Bool

/-- The `this.principleScores` record after the five scoring assignments of
`runAIAssessment` (lines 925-929): only five principles are ever computed;
the other five fields keep their constructor value 0. -/
def aiPrincipleScores (o : AIAssessmentObs) : PrincipleScores :=
  { observability := scoreAIObservability o.observability,
    controllability := scoreAIControllability o.controllability,
    algorithmicSimplicity := scoreAIAlgorithmicSimplicity o.simplicity,
    algorithmicTransparency := 0,
    algorithmicStability := 0,
    explainability := scoreAIExplainability o.explainabilityThrows,
    unbugginess := 0,
    smallness := 0,
    decomposability := scoreAIDecomposability o.decomposabilityThrows,
    similarity := 0 }

/-- The overall-score step of `runAIAssessment` (lines 931-935):
`Math.round(sum(Object.values(this.principleScores)) / Object.values(this.principleScores).length)`. -/
def aiOverallScore (o : AIAssessmentObs) : ℤ :=
  jsRound ((aiPrincipleScores o).values.sum
    / ((aiPrincipleScores o).values.length : ℚ))

/-- One entry of `aiInsights.improvementSuggestions`. -/
structure Suggestion where
  principle : String
  priority : String
  suggestion : String
  aiReasoning : String
  deriving DecidableEq

/-- The suggestions `generateAIInsights` (lines 966-1007) pushes in one run:
one per principle among observability, controllability and explainability
scoring below 70. -/
def newSuggestions (ps : PrincipleScores) : List Suggestion :=
  (if ps.observability < 70 then
    [{ principle := "Observability", priority := "High",
       suggestion := "Add more data-test attributes and implement comprehensive state monitoring",
       aiReasoning := "AI detected limited element observability and state capture capabilities" }]
   else [])
  ++ (if ps.controllability < 70 then
    [{ principle := "Controllability", priority := "High",
       suggestion := "Improve interaction patterns and ensure reliable element state control",
       aiReasoning := "AI analysis shows inconsistent interaction patterns and state management" }]
   else [])
  ++ (if ps.explainability < 70 then
    [{ principle := "Explainability", priority := "Medium",
       suggestion := "Enhance semantic HTML structure and accessibility attributes",
       aiReasoning := "AI semantic analysis indicates limited contextual understanding capabilities" }]
   else [])

/-- The fields of one `runAIAssessment` return value relevant to the scoring
engine. -/
structure AIAssessmentResult where
  overallScore : ℤ
  principleScores : PrincipleScores
  grade : String
  recommendations : List Suggestion

/-- `runAIAssessment` with the cross-call instance state made explicit:
`generateAIInsights` pushes onto `this.aiInsights.improvementSuggestions`,
which is created once in the constructor and never cleared, so it persists
from one assessment to the next; the returned `recommendations` field aliases
that accumulated list. -/
def runAIAssessment (state : List Suggestion) (o : AIAssessmentObs) :
    AIAssessmentResult × List Suggestion :=
  ({ overallScore := aiOverallScore o,
     principleScores := aiPrincipleScores o,
     grade := getAIGrade (aiOverallScore o),
     recommendations := state ++ newSuggestions (aiPrincipleScores o) },
   state ++ newSuggestions (aiPrincipleScores o))

/-- The all-default controllability and simplicity bags. -/
def zeroAIControllabilityObs : AIControllabilityObs :=
  { textInputCount := 0, fillEchoes := false, fillPartial := false,
    requiredInputs := 0, typedInputs := 0, inputThrows := false,
    enabledButtonExists := false, formCount := 0, interactiveDataTest := 0,
    stateThrows := false, urlStable := false, elementCountStable := false,
    determinismThrows := false, analysisThrows := false }

def zeroAISimplicityObs : AISimplicityObs :=
  { totalElements := 0, divElements := 0, nestedLevels := 0, scriptTags := 0,
    complexityThrows := false, analysisThrows := false }

/-- An empty-page observation set: every count zero, every flag false. -/
def emptyPageObs : AIAssessmentObs :=
  { observability := zeroAIObservabilityObs,
    controllability := zeroAIControllabilityObs,
    simplicity := zeroAISimplicityObs,
    explainabilityThrows := false, decomposabilityThrows := false }

theorem scoreAIObservability_emptyPage :
    scoreAIObservability emptyPageObs.observability = 23 := by
  rw [show emptyPageObs.observability = zeroAIObservabilityObs from rfl]
  rw [scoreAIObservability, if_neg (by simp [zeroAIObservabilityObs])]
  norm_num [analyzeDataTestAttributes, analyzeStateCapture, analyzeErrorVisibility,
    analyzeVisualCapabilities, analyzeNetworkMonitoring, calculateIntelligenceBonus,
    zeroAIObservabilityObs, min_def]

theorem scoreAIControllability_emptyPage :
    scoreAIControllability emptyPageObs.controllability = 18 := by
  rw [show emptyPageObs.controllability = zeroAIControllabilityObs from rfl]
  rw [scoreAIControllability, if_neg (by simp [zeroAIControllabilityObs])]
  norm_num [analyzeInputPrecision, analyzeStateControl, analyzeDeterminism,
    zeroAIControllabilityObs, min_def]

theorem newSuggestions_emptyPage :
    (newSuggestions (aiPrincipleScores emptyPageObs)).length = 2 := by
  rw [newSuggestions]
  rw [show (aiPrincipleScores emptyPageObs).observability
      = scoreAIObservability emptyPageObs.observability from rfl,
    show (aiPrincipleScores emptyPageObs).controllability
      = scoreAIControllability emptyPageObs.controllability from rfl,
    show (aiPrincipleScores emptyPageObs).explainability
      = scoreAIExplainability emptyPageObs.explainabilityThrows from rfl,
    scoreAIObservability_emptyPage, scoreAIControllability_emptyPage,
    show scoreAIExplainability emptyPageObs.explainabilityThrows = 78 from rfl]
  norm_num

/-- C8 counterexample: running the same empty-page observation set twice on
one scorer instance does not reproduce the first output — the persistent
`improvementSuggestions` list doubles, so the second result carries 4
recommendations where the first carried 2. -/
theorem runAIAssessment_not_idempotent :
    (runAIAssessment [] emptyPageObs).1.recommendations.length = 2
  ∧ (runAIAssessment (runAIAssessment [] emptyPageObs).2
      emptyPageObs).1.recommendations.length = 4 := by
  constructor
  · show ([] ++ newSuggestions (aiPrincipleScores emptyPageObs)).length = 2
    rw [List.nil_append, newSuggestions_emptyPage]
  · show (([] ++ newSuggestions (aiPrincipleScores emptyPageObs))
        ++ newSuggestions (aiPrincipleScores emptyPageObs)).length = 4
    rw [List.nil_append, List.length_append, newSuggestions_emptyPage]

/-- C8 (amended): principle scores, overall score and grade are pure
functions of the observation set — a second run with an identical observation
set reproduces them — but the scorer instance keeps
`aiInsights.improvementSuggestions` across calls, so the second run returns
the first recommendation list with the run's suggestions appended once more;
the full outputs coincide only when no suggestion is generated. -/
theorem runAIAssessment_repeat (st : List Suggestion) (o : AIAssessmentObs) :
    ((runAIAssessment (runAIAssessment st o).2 o).1.principleScores
      = (runAIAssessment st o).1.principleScores)
  ∧ ((runAIAssessment (runAIAssessment st o).2 o).1.overallScore
      = (runAIAssessment st o).1.overallScore)
  ∧ ((runAIAssessment (runAIAssessment st o).2 o).1.grade
      = (runAIAssessment st o).1.grade)
  ∧ ((runAIAssessment (runAIAssessment st o).2 o).1.recommendations
      = (runAIAssessment st o).1.recommendations
        ++ newSuggestions (aiPrincipleScores o)) :=
  ⟨rfl, rfl, rfl, rfl⟩

/-- C9: the AI overall score divides by all ten principle-score fields even
though only five are ever computed; the five unassessed fields contribute
their initial 0, so the overall score is `round(sum of the five / 10)` and
cannot exceed 50 when each computed score is at most 100. -/
theorem aiOverallScore_five_of_ten (o : AIAssessmentObs)
    (h1 : scoreAIObservability o.observability ≤ 100)
    (h2 : scoreAIControllability o.controllability ≤ 100)
    (h3 : scoreAIAlgorithmicSimplicity o.simplicity ≤ 100)
    (h4 : scoreAIExplainability o.explainabilityThrows ≤ 100)
    (h5 : scoreAIDecomposability o.decomposabilityThrows ≤ 100) :
    aiOverallScore o = jsRound ((scoreAIObservability o.observability
      + scoreAIControllability o.controllability
      + scoreAIAlgorithmicSimplicity o.simplicity
      + scoreAIExplainability o.explainabilityThrows
      + scoreAIDecomposability o.decomposabilityThrows) / 10)
  ∧ aiOverallScore o ≤ 50 := by
  have hsum : (aiPrincipleScores o).values.sum
      = scoreAIObservability o.observability
        + scoreAIControllability o.controllability
        + scoreAIAlgorithmicSimplicity o.simplicity
        + scoreAIExplainability o.explainabilityThrows
        + scoreAIDecomposability o.decomposabilityThrows := by
    simp [PrincipleScores.values, aiPrincipleScores]
    ring
  have hlen : ((aiPrincipleScores o).values.length : ℚ) = 10 := by
    rw [values_length]; norm_num
  have hmain : aiOverallScore o = jsRound ((scoreAIObservability o.observability
      + scoreAIControllability o.controllability
      + scoreAIAlgorithmicSimplicity o.simplicity
      + scoreAIExplainability o.explainabilityThrows
      + scoreAIDecomposability o.decomposabilityThrows) / 10) := by
    rw [aiOverallScore, hsum, hlen]
  refine ⟨hmain, ?_⟩
  rw [hmain]
  have hdiv : (scoreAIObservability o.observability
      + scoreAIControllability o.controllability
      + scoreAIAlgorithmicSimplicity o.simplicity
      + scoreAIExplainability o.explainabilityThrows
      + scoreAIDecomposability o.decomposabilityThrows) / 10 ≤ (50 : ℚ) := by
    rw [div_le_iff₀ (by norm_num : (0 : ℚ) < 10)]
    linarith
  have h50 : (⌊(50 : ℚ) + 1 / 2⌋ : ℤ) = 50 := by
    rw [Int.floor_eq_iff]
    norm_num
  calc jsRound ((scoreAIObservability o.observability
      + scoreAIControllability o.controllability
      + scoreAIAlgorithmicSimplicity o.simplicity
      + scoreAIExplainability o.explainabilityThrows
      + scoreAIDecomposability o.decomposabilityThrows) / 10)
      ≤ ⌊(50 : ℚ) + 1 / 2⌋ := Int.floor_le_floor (by linarith)
    _ = 50 := h50

/-- An observation bag on which every principle analysis throws, exercising
all five fallback scores (20, 25, 30, 35, 40). -/
def throwingAIObs : AIAssessmentObs :=
  { observability := { zeroAIObservabilityObs with analysisThrows := true },
    controllability := { zeroAIControllabilityObs with analysisThrows := true },
    simplicity := { zeroAISimplicityObs with analysisThrows := true },
    explainabilityThrows := true, decomposabilityThrows := true }

/-- C9 witness: the overall-score theorem at the all-throwing observation
bag, whose five fallback scores are 20, 25, 30, 35 and 40. -/
theorem aiOverallScore_five_of_ten_witness :
    aiOverallScore throwingAIObs
      = jsRound ((scoreAIObservability throwingAIObs.observability
        + scoreAIControllability throwingAIObs.controllability
        + scoreAIAlgorithmicSimplicity throwingAIObs.simplicity
        + scoreAIExplainability throwingAIObs.explainabilityThrows
        + scoreAIDecomposability throwingAIObs.decomposabilityThrows) / 10)
  ∧ aiOverallScore throwingAIObs ≤ 50 :=
  aiOverallScore_five_of_ten throwingAIObs
    (by rw [show scoreAIObservability throwingAIObs.observability = 20 from rfl]
        norm_num)
    (by rw [show scoreAIControllability throwingAIObs.controllability = 25 from rfl]
        norm_num)
    (by rw [show scoreAIAlgorithmicSimplicity throwingAIObs.simplicity = 30 from rfl]
        norm_num)
    (by rw [show scoreAIExplainability throwingAIObs.explainabilityThrows = 35 from rfl]
        norm_num)
    (by rw [show scoreAIDecomposability throwingAIObs.decomposabilityThrows = 40 from rfl]
        norm_num)

/-- The fields of an assessment result that the report generators consume:
every generator filters on `results.filter(r => !r.error)`. -/
structure AssessResult where
  userType : String
  err : Option String
  overallScore : ℤ

/-- JS truthiness of the `error` property as used by `!r.error`: an absent
(`undefined`) property and the empty string are falsy. -/
def isFalsyError : Option String → Bool
  | none => true
  | some s => s == ""

/-- `results.filter(r => !r.error)`, shared by all three report generators. -/
def successfulResults (rs : List AssessResult) : List AssessResult :=
  rs.filter (fun r => isFalsyError r.err)

/-- `generateComparisonReport` (unnamed/part_007, lines 186-191): the
empty-guard and message; the report body is abbreviated to its data-bearing
row content (fixed headers, padding and the summary sections are
presentation). -/
def generateComparisonReport (rs : List AssessResult) : String :=
  if (successfulResults rs).isEmpty then "No successful assessments to report."
  else "INTRINSIC TESTABILITY COMPARISON REPORT\n"
    ++ String.intercalate "\n" ((successfulResults rs).map (fun r =>
        r.userType ++ " | " ++ toString r.overallScore))

/-- `generateComprehensiveReport` (comprehensive analyzer, lines 764-769),
abbreviated the same way. -/
def generateComprehensiveReport (rs : List AssessResult) : String :=
  if (successfulResults rs).isEmpty then "No successful analyses to report."
  else "COMPREHENSIVE 10-PRINCIPLE TESTABILITY REPORT\n"
    ++ String.intercalate "\n" ((successfulResults rs).map (fun r =>
        r.userType ++ " | " ++ toString r.overallScore))

/-- `generateAIReport` (ai-testability-scorer.js, lines 1024-1029),
abbreviated the same way. -/
def generateAIReport (rs : List AssessResult) : String :=
  if (successfulResults rs).isEmpty then "No successful AI assessments to report."
  else "AI-ENHANCED INTRINSIC TESTABILITY REPORT\n"
    ++ String.intercalate "\n" ((successfulResults rs).map (fun r =>
        r.userType ++ " | " ++ toString r.overallScore))

/-- C10: when every assessment result carries a (truthy) error, each report
generator returns its fixed no-successful-results message instead of raising
or emitting a partial report. -/
theorem reports_on_all_failed (rs : List AssessResult)
    (h : ∀ r ∈ rs, ∃ s, r.err = some s ∧ s ≠ "") :
    generateComparisonReport rs = "No successful assessments to report."
  ∧ generateComprehensiveReport rs = "No successful analyses to report."
  ∧ generateAIReport rs = "No successful AI assessments to report." := by
  have hempty : successfulResults rs = [] := by
    rw [successfulResults, List.filter_eq_nil_iff]
    intro r hr
    obtain ⟨s, hs, hne⟩ := h r hr
    rw [hs]
    simp [isFalsyError, hne]
  refine ⟨?_, ?_, ?_⟩
  · rw [generateComparisonReport, hempty]; rfl
  · rw [generateComprehensiveReport, hempty]; rfl
  · rw [generateAIReport, hempty]; rfl

/-- C10 witness: the all-failed report theorem at a concrete one-element
result list whose entry carries a login error. -/
theorem reports_on_all_failed_witness :
    generateComparisonReport [⟨"locked_out_user", some "Login failed", 0⟩]
      = "No successful assessments to report."
  ∧ generateComprehensiveReport [⟨"locked_out_user", some "Login failed", 0⟩]
      = "No successful analyses to report."
  ∧ generateAIReport [⟨"locked_out_user", some "Login failed", 0⟩]
      = "No successful AI assessments to report." :=
  reports_on_all_failed [⟨"locked_out_user", some "Login failed", 0⟩]
    (by intro r hr
        simp only [List.mem_cons, List.not_mem_nil, or_false] at hr
        subst hr
        exact ⟨"Login failed", rfl, by decide⟩)

end TestabilityScorer
